import Mathlib

/-!
Shallow embedding of the two data-preparation pipelines of the
neotopia-navigator repository:

* `scripts/prepare_catrare.py` — the VECTOR pipeline (CatRaRE events →
  PMTiles archive, GeoJSON fallback, mock placeholder on failure);
* `scripts/prepare_kostra.py` — the RASTER pipeline (KOSTRA ASCII grids →
  Cloud Optimized GeoTIFFs, one per duration × return-period scenario).

Subprocess invocations, network transfers and filesystem operations are
modelled as an explicit trace of actions; the outcomes of the external
world (HTTP responses, tool exit statuses, file existence) are inputs
collected in environment structures, so each `main` becomes a pure
function from an environment to an exit code and an action trace.
-/

namespace Catrare

/-- Result of `check_dependencies` (prepare_catrare.py, lines 93-113):
availability of the three external tools. -/
structure Deps where
  ogr2ogr : Bool
  tippecanoe : Bool
  pmtiles : Bool
deriving DecidableEq, Repr

/-- What opening the downloaded archive with `zipfile.ZipFile` yields:
either `zipfile.BadZipFile` is raised, or a listing of entry names
(`zf.namelist()` in `extract_shapefile`, lines 162-182). -/
inductive ZipResult where
  | badZip
  | entries (names : List String)
deriving DecidableEq, Repr

/-- Environment of `filter_and_convert_to_geojson` (lines 185-228): the
exit status of the `ogr2ogr` subprocess, whether the declared output file
exists afterwards, and whether that file parses as JSON (`json.load` at
line 220 raises on invalid JSON; the raise is caught by the
`except Exception` at line 226 and turned into `False`). -/
structure ConvEnv where
  returncode : Nat
  output_exists : Bool
  output_parses : Bool
deriving DecidableEq, Repr

/-- Environment of `convert_to_pmtiles` (lines 231-283): tippecanoe exit
status ok, and whether the declared PMTiles output file exists. -/
structure PmtEnv where
  rc_ok : Bool
  out_exists : Bool
deriving DecidableEq, Repr

/-- Observable effects of one vector-pipeline run. `probeUrl` and `netGet`
are network operations; `mkdirOutput created` records the
`mkdir(parents=True, exist_ok=True)` call, `created = true` meaning the
directory did not exist and the call wrote to the filesystem. -/
inductive CAction where
  | mkdirOutput (created : Bool)
  | probeUrl (url : String)
  | netGet
  | writeFile (name : String)
  | extractAll
  | runOgr2ogr (cutoff : Nat)
  | runTippecanoe
  | createMock
deriving DecidableEq, Repr

def CAction.isNetwork : CAction → Bool
  | .probeUrl _ => true
  | .netGet => true
  | _ => false

def CAction.isConversion : CAction → Bool
  | .runOgr2ogr _ => true
  | .runTippecanoe => true
  | _ => false

def CAction.isFsWrite : CAction → Bool
  | .writeFile _ => true
  | .mkdirOutput created => created
  | _ => false

/-- CATRARE_BASE_URL (line 58). -/
def CATRARE_BASE_URL : String :=
  "https://opendata.dwd.de/climate_environment/CDC/grids_germany/hourly/radolan/CatRaRE/"

/-- CATRARE_VERSION (line 59). -/
def CATRARE_VERSION : String := "CatRaRE_W3_Eta_v2023.01"

/-- The candidate URL patterns of `find_catrare_download_url`
(lines 145-149). -/
def url_patterns : List String :=
  [CATRARE_BASE_URL ++ CATRARE_VERSION ++ ".zip",
   CATRARE_BASE_URL ++ CATRARE_VERSION ++ "/" ++ CATRARE_VERSION ++ ".zip",
   CATRARE_BASE_URL ++ "latest.zip"]

/-- The probing loop of `find_catrare_download_url` (lines 151-159):
`headOk u` tells whether the `requests.head` probe of `u` returns status
200 (an exception or other status is `false`). Returns the probe actions
performed and the first successful URL, if any. -/
def findUrlGo (headOk : String → Bool) : List String → List CAction × Option String
  | [] => ([], none)
  | u :: rest =>
    if headOk u then ([CAction.probeUrl u], some u)
    else
      let r := findUrlGo headOk rest
      (CAction.probeUrl u :: r.1, r.2)

/-- find_catrare_download_url (lines 143-159). -/
def find_catrare_download_url (headOk : String → Bool) :
    List CAction × Option String :=
  findUrlGo headOk url_patterns

/-- Python str.endswith: whether `s` ends with `suffix`, decided on the
character lists. -/
def strEndsWith (s suffix : String) : Bool :=
  s.data.reverse.take suffix.data.length == suffix.data.reverse

/-- The list of entries ending in `.shp` that `extract_shapefile` computes
(line 169). -/
def shpEntries : ZipResult → List String
  | ZipResult.badZip => []
  | ZipResult.entries names => names.filter (fun n => strEndsWith n ".shp")

/-- extract_shapefile (lines 162-182): on `BadZipFile` the exception is
caught and `None` returned; with zero `.shp` entries `None` is returned
without extracting; otherwise the whole archive is extracted
(`zf.extractall`, line 174) and the path of the first `.shp` entry inside
the extraction directory is returned. -/
def extract_shapefile (zr : ZipResult) (extract_dir : String) :
    List CAction × Option String :=
  match zr with
  | ZipResult.badZip => ([], none)
  | ZipResult.entries names =>
    match names.filter (fun n => strEndsWith n ".shp") with
    | [] => ([], none)
    | f :: _ => ([CAction.extractAll], some (extract_dir ++ "/" ++ f))

/-- The date cutoff of `filter_and_convert_to_geojson`, line 191:
`min_date = min_year * 10000 + 101`. -/
def min_date (min_year : Nat) : Nat := min_year * 10000 + 101

/-- Modelled from the spec: the `YYYYMMDD` integer encoding of a calendar
date, used to state the property of §8 about the date-filter construction. -/
def yyyymmdd (y m d : Nat) : Nat := y * 10000 + m * 100 + d

/-- Success of `filter_and_convert_to_geojson` (lines 185-228): `False`
when `ogr2ogr` exits non-zero (line 208), `False` when the output file was
not created (line 212), `False` when `json.load` on the output raises
(caught at line 226); `True` otherwise. -/
def filter_and_convert_to_geojson (c : ConvEnv) : Bool :=
  if c.returncode != 0 then false
  else if !c.output_exists then false
  else c.output_parses

/-- Success of `convert_to_pmtiles` (lines 231-283): tippecanoe must exit
zero (line 252) and the PMTiles file must exist (line 256). -/
def convert_to_pmtiles (p : PmtEnv) : Bool := p.rc_ok && p.out_exists

/-- Trace of `create_mock_data` (lines 286-377): writes the mock GeoJSON,
re-checks the dependencies, and — when tippecanoe is available — attempts
PMTiles generation from the mock data, ignoring its outcome. The function
always returns `True` in the source, hence no success flag here. -/
def create_mock_data (deps : Deps) (mockPmt : PmtEnv) : List CAction :=
  [CAction.createMock, CAction.writeFile "catrare_recent.json"] ++
  (if deps.tippecanoe then
    CAction.runTippecanoe ::
      (if convert_to_pmtiles mockPmt then [CAction.writeFile "catrare.pmtiles"] else [])
  else [])

/-- Environment of one vector-pipeline run: CLI flags, current year (used
at line 467 to compute `min_year`), pre-existing filesystem state, and the
outcomes of the external world at each stage. -/
structure Env where
  deps : Deps
  mock : Bool
  geojson_only : Bool
  force_download : Bool
  years : Nat
  currentYear : Nat
  outputDirExists : Bool
  pmtilesExists : Bool
  headOk : String → Bool
  downloadOk : Bool
  zip : ZipResult
  conv : ConvEnv
  pmt : PmtEnv
  mockPmt : PmtEnv

/-- main of prepare_catrare.py (lines 380-530) as exit code × trace.
Path order follows the source: dependency gate (lines 428-432, a
`sys.exit(1)` before any directory creation or network access), output
directory creation (line 449), existence-based skip (lines 456-459), mock
mode (lines 462-464), URL resolution, download, extraction, conversion,
GeoJSON copy (line 509) and PMTiles packaging (lines 513-518, whose
failure only prints a warning). Every failing stage after the dependency
gate calls `create_mock_data` and returns, so the process exits 0. -/
def catrareMain (e : Env) : Nat × List CAction :=
  if !e.deps.ogr2ogr && !e.mock then
    (1, [])
  else
    let pre := [CAction.mkdirOutput (!e.outputDirExists)]
    if e.pmtilesExists && !e.force_download && !e.mock then
      (0, pre)
    else if e.mock then
      (0, pre ++ create_mock_data e.deps e.mockPmt)
    else
      let min_year := e.currentYear - e.years
      let fu := find_catrare_download_url e.headOk
      match fu.2 with
      | none => (0, pre ++ fu.1 ++ create_mock_data e.deps e.mockPmt)
      | some _ =>
        let t1 := pre ++ fu.1 ++ [CAction.netGet]
        if !e.downloadOk then
          (0, t1 ++ create_mock_data e.deps e.mockPmt)
        else
          let ex := extract_shapefile e.zip "tmp"
          let t2 := t1 ++ [CAction.writeFile "catrare.zip"] ++ ex.1
          match ex.2 with
          | none => (0, t2 ++ create_mock_data e.deps e.mockPmt)
          | some _ =>
            let t3 := t2 ++ [CAction.runOgr2ogr (min_date min_year)]
            if !filter_and_convert_to_geojson e.conv then
              (0, t3 ++ create_mock_data e.deps e.mockPmt)
            else
              let t4 := t3 ++ [CAction.writeFile "catrare_recent.json"]
              if e.deps.tippecanoe && !e.geojson_only then
                (0, t4 ++ CAction.runTippecanoe ::
                  (if convert_to_pmtiles e.pmt then [CAction.writeFile "catrare.pmtiles"] else []))
              else
                (0, t4)

/-- A JSON value, used to embed the mock GeoJSON literal of
`create_mock_data` (lines 290-359). Numeric literals of the Python source
are kept exactly: integers as `int`, decimal fractions as `rat`. -/
inductive Json where
  | str (s : String)
  | int (n : Int)
  | rat (q : Rat)
  | arr (xs : List Json)
  | obj (fields : List (String × Json))

/-- Field lookup in a JSON object, none on other shapes. -/
def Json.lookup : Json → String → Option Json
  | Json.obj fields, k => (fields.find? (fun p => p.1 == k)).map (fun p => p.2)
  | _, _ => none

/-- The three mock features of `create_mock_data` (lines 297-358). -/
def mock_features : List Json :=
      [Json.obj
         [("type", Json.str "Feature"),
          ("properties", Json.obj
            [("ID", Json.str "MOCK001"),
             ("DATUM", Json.int 20230715),
             ("ANFANG", Json.str "1400"),
             ("ENDE", Json.str "1800"),
             ("DAUER_H", Json.int 4),
             ("N_MAX", Json.rat 85.5),
             ("N_SUMME", Json.rat 120.3),
             ("WARNSTUFE", Json.int 3),
             ("FLAECHE_KM2", Json.rat 250.5)]),
          ("geometry", Json.obj
            [("type", Json.str "Polygon"),
             ("coordinates", Json.arr
               [Json.arr
                 [Json.arr [Json.rat 10.0, Json.rat 51.0],
                  Json.arr [Json.rat 10.5, Json.rat 51.0],
                  Json.arr [Json.rat 10.5, Json.rat 51.5],
                  Json.arr [Json.rat 10.0, Json.rat 51.5],
                  Json.arr [Json.rat 10.0, Json.rat 51.0]]])])],
        Json.obj
         [("type", Json.str "Feature"),
          ("properties", Json.obj
            [("ID", Json.str "MOCK002"),
             ("DATUM", Json.int 20220621),
             ("ANFANG", Json.str "1600"),
             ("ENDE", Json.str "2100"),
             ("DAUER_H", Json.int 5),
             ("N_MAX", Json.rat 92.1),
             ("N_SUMME", Json.rat 145.8),
             ("WARNSTUFE", Json.int 4),
             ("FLAECHE_KM2", Json.rat 180.2)]),
          ("geometry", Json.obj
            [("type", Json.str "Polygon"),
             ("coordinates", Json.arr
               [Json.arr
                 [Json.arr [Json.rat 8.5, Json.rat 50.0],
                  Json.arr [Json.rat 9.0, Json.rat 50.0],
                  Json.arr [Json.rat 9.0, Json.rat 50.3],
                  Json.arr [Json.rat 8.5, Json.rat 50.3],
                  Json.arr [Json.rat 8.5, Json.rat 50.0]]])])],
        Json.obj
         [("type", Json.str "Feature"),
          ("properties", Json.obj
            [("ID", Json.str "MOCK003"),
             ("DATUM", Json.int 20210814),
             ("ANFANG", Json.str "0200"),
             ("ENDE", Json.str "0800"),
             ("DAUER_H", Json.int 6),
             ("N_MAX", Json.rat 110.0),
             ("N_SUMME", Json.rat 180.5),
             ("WARNSTUFE", Json.int 4),
             ("FLAECHE_KM2", Json.rat 320.0)]),
          ("geometry", Json.obj
            [("type", Json.str "Polygon"),
             ("coordinates", Json.arr
               [Json.arr
                 [Json.arr [Json.rat 6.8, Json.rat 50.5],
                  Json.arr [Json.rat 7.2, Json.rat 50.5],
                  Json.arr [Json.rat 7.2, Json.rat 50.8],
                  Json.arr [Json.rat 6.8, Json.rat 50.8],
                  Json.arr [Json.rat 6.8, Json.rat 50.5]]])])]]

/-- mock_geojson (lines 290-359), the literal written by
`create_mock_data` to `catrare_recent.json`. -/
def mock_geojson : Json :=
  Json.obj
    [("type", Json.str "FeatureCollection"),
     ("metadata", Json.obj
       [("source", Json.str "Mock data for development"),
        ("version", Json.str "MOCK"),
        ("attribution", Json.str "Quelle: DWD, CatRaRE v2023.01 (Mock)")]),
     ("features", Json.arr mock_features)]

/-- The property keys KEEP_COLUMNS retains besides geometry (lines 65-76);
the nine keys the end-to-end mock scenario requires of every feature. -/
def requiredKeys : List String :=
  ["ID", "DATUM", "ANFANG", "ENDE", "DAUER_H",
   "N_MAX", "N_SUMME", "WARNSTUFE", "FLAECHE_KM2"]

/-- Whether a feature has an object under `properties` containing all the
required keys. -/
def featureHasRequiredKeys (f : Json) : Bool :=
  match f.lookup "properties" with
  | some (Json.obj props) =>
      requiredKeys.all (fun k => props.any (fun p => p.1 == k))
  | _ => false

end Catrare

namespace Kostra

/-- DURATIONS (prepare_kostra.py, lines 61-65): display key → duration
code used in the remote filename. -/
def DURATIONS : List (String × String) :=
  [("60min", "060"), ("12h", "720"), ("24h", "1440")]

/-- RETURN_PERIODS (lines 67-70). -/
def RETURN_PERIODS : List (String × String) :=
  [("10a", "010"), ("100a", "100")]

/-- BASE_URL (line 56). -/
def BASE_URL : String :=
  "https://opendata.dwd.de/climate_environment/CDC/grids_germany/return_periods/precipitation/KOSTRA/KOSTRA_DWD_2020_v2021.01/"

/-- The remote filename of a scenario (line 251):
hN_D{duration_code}m_T{period_code}a.asc.gz. -/
def scenarioFilename (duration_code period_code : String) : String :=
  "hN_D" ++ duration_code ++ "m_T" ++ period_code ++ "a.asc.gz"

/-- The decompressed grid name (line 265): the filename with its `.gz`
suffix removed by `filename.replace`. -/
def scenarioAscName (duration_code period_code : String) : String :=
  "hN_D" ++ duration_code ++ "m_T" ++ period_code ++ "a.asc"

/-- The output COG name of a scenario (line 254):
kostra_d{duration_key}_t{period_key}.tif. -/
def scenarioOutput (duration_key period_key : String) : String :=
  "kostra_d" ++ duration_key ++ "_t" ++ period_key ++ ".tif"

/-- The (input-filename, output-filename) pairs the dry-run branch prints
(lines 328-334): durations outer loop, return periods inner loop. -/
def dryRunPairs : List (String × String) :=
  DURATIONS.flatMap (fun d => RETURN_PERIODS.map (fun p =>
    (scenarioFilename d.2 p.2, scenarioOutput d.1 p.1)))

/-- Observable effects of one raster-pipeline run. `mkdirOutput created`
records the `mkdir(parents=True, exist_ok=True)` call at line 324;
`planPair` a printed dry-run line; `createIntermediate` the
`NamedTemporaryFile(delete=False)` at line 153; `unlinkIntermediate` the
`intermediate_path.unlink(missing_ok=True)` at line 188. -/
inductive KAction where
  | checkGdal
  | mkdirOutput (created : Bool)
  | planPair (inp out : String)
  | netGet (url : String)
  | writeFile (name : String)
  | runDecompress
  | createIntermediate
  | runTranslate
  | runWarp
  | unlinkIntermediate
  | runVerify
  | unlinkTemp (name : String)
deriving DecidableEq, Repr

def KAction.isNetwork : KAction → Bool
  | .netGet _ => true
  | _ => false

def KAction.isFsWrite : KAction → Bool
  | .mkdirOutput created => created
  | .writeFile _ => true
  | .createIntermediate => true
  | _ => false

/-- The pair a `planPair` action prints, none for other actions. -/
def KAction.planOf : KAction → Option (String × String)
  | .planPair inp out => some (inp, out)
  | _ => none

/-- Environment of `convert_to_cog` (lines 134-204): exit status of the
`gdal_translate` step, of the `gdalwarp` step, and the outcome of the
`verify_cog` read-back. -/
structure CogEnv where
  translateOk : Bool
  warpOk : Bool
  cogValid : Bool
deriving DecidableEq, Repr

/-- convert_to_cog (lines 134-204) as success flag × trace. The
intermediate GeoTIFF is created first (line 153); if `gdal_translate`
fails the function returns at line 170 without unlinking it; otherwise
`gdalwarp` runs and the intermediate is unlinked (line 188) before the
warp exit status is checked (line 190). On the success path `verify_cog`
runs; its result only downgrades to a printed warning (line 196). -/
def convert_to_cog (c : CogEnv) : Bool × List KAction :=
  if !c.translateOk then
    (false, [KAction.createIntermediate, KAction.runTranslate])
  else if !c.warpOk then
    (false, [KAction.createIntermediate, KAction.runTranslate,
             KAction.runWarp, KAction.unlinkIntermediate])
  else
    (true, [KAction.createIntermediate, KAction.runTranslate,
            KAction.runWarp, KAction.unlinkIntermediate, KAction.runVerify])

/-- External-world outcomes of one scenario: download success, gzip
decompression success, and the conversion sub-step outcomes. -/
structure ScenarioEnv where
  downloadOk : Bool
  decompressOk : Bool
  cog : CogEnv
deriving DecidableEq, Repr

/-- Whether `process_scenario` returns True for a scenario with these
outcomes. -/
def scenario_ok (s : ScenarioEnv) : Bool :=
  s.downloadOk && s.decompressOk && (convert_to_cog s.cog).1

/-- process_scenario (lines 239-277) as success flag × trace: download the
compressed grid, decompress it, convert to COG, then unlink the two
temporary files. Each failing step returns False at once. -/
def process_scenario (d p : String × String) (s : ScenarioEnv) :
    Bool × List KAction :=
  let filename := scenarioFilename d.2 p.2
  if !s.downloadOk then
    (false, [KAction.netGet (BASE_URL ++ filename)])
  else
    let t1 := [KAction.netGet (BASE_URL ++ filename), KAction.writeFile filename,
               KAction.runDecompress]
    if !s.decompressOk then
      (false, t1)
    else
      let t2 := t1 ++ [KAction.writeFile (scenarioAscName d.2 p.2)]
      let cv := convert_to_cog s.cog
      if !cv.1 then
        (false, t2 ++ cv.2)
      else
        (true, t2 ++ cv.2 ++
          [KAction.unlinkTemp filename, KAction.unlinkTemp (scenarioAscName d.2 p.2)])

/-- The scenario iteration order of main (lines 343-349): durations outer,
return periods inner, numbered 0..5. -/
def scenarioList : List ((String × String) × (String × String)) :=
  DURATIONS.flatMap (fun d => RETURN_PERIODS.map (fun p => (d, p)))

/-- The scenario loop of main: success count and concatenated trace,
scenario `i` of the iteration order drawing its outcomes from `env i`. -/
def runScenariosGo (env : Nat → ScenarioEnv) :
    List (Nat × ((String × String) × (String × String))) → Nat × List KAction
  | [] => (0, [])
  | (i, dp) :: rest =>
    let r := process_scenario dp.1 dp.2 (env i)
    let r2 := runScenariosGo env rest
    ((if r.1 then 1 else 0) + r2.1, r.2 ++ r2.2)

/-- Environment of one raster-pipeline run. `outputsExist` records whether
the final COG artifacts are already present in the output directory; the
script never consults it (there is no existence-based skip in
prepare_kostra.py). -/
structure KEnv where
  gdalInstalled : Bool
  dryRun : Bool
  outputDirExists : Bool
  outputsExist : Bool
  scenario : Nat → ScenarioEnv

/-- main of prepare_kostra.py (lines 280-363) as exit code × trace: the
GDAL check (lines 316-319) exits 1 unconditionally when the tools are
missing — before the dry-run branch is ever reached; then the output
directory is created (line 324); the dry-run branch (lines 327-334) prints
the six planned pairs and returns; otherwise every scenario is processed
and the run exits 1 when fewer than all succeeded (lines 361-363). -/
def kostraMain (e : KEnv) : Nat × List KAction :=
  if !e.gdalInstalled then
    (1, [KAction.checkGdal])
  else
    let pre := [KAction.checkGdal, KAction.mkdirOutput (!e.outputDirExists)]
    if e.dryRun then
      (0, pre ++ dryRunPairs.map (fun pr => KAction.planPair pr.1 pr.2))
    else
      let r := runScenariosGo e.scenario scenarioList.enum
      ((if r.1 < scenarioList.length then 1 else 0), pre ++ r.2)

end Kostra

/-! ## Helper lemmas -/

namespace Catrare

theorem createMock_mem_create_mock_data (d : Deps) (p : PmtEnv) :
    CAction.createMock ∈ create_mock_data d p := by
  simp [create_mock_data]

theorem create_mock_no_ogr (d : Deps) (p : PmtEnv) (c : Nat) :
    CAction.runOgr2ogr c ∉ create_mock_data d p := by
  by_cases h1 : d.tippecanoe <;> by_cases h2 : convert_to_pmtiles p <;>
    simp [create_mock_data, h1, h2]

theorem findUrlGo_no_ogr (headOk : String → Bool) (l : List String) (c : Nat) :
    CAction.runOgr2ogr c ∉ (findUrlGo headOk l).1 := by
  induction l with
  | nil => simp [findUrlGo]
  | cons u rest ih =>
    by_cases h : headOk u <;> simp [findUrlGo, h, ih]

theorem extract_actions (zr : ZipResult) (dir : String) :
    (extract_shapefile zr dir).1 = [] ∨
    (extract_shapefile zr dir).1 = [CAction.extractAll] := by
  rcases zr with _ | names
  · simp [extract_shapefile]
  · rcases h : names.filter (fun n => strEndsWith n ".shp") with _ | ⟨f, fs⟩ <;>
      simp [extract_shapefile, h]

theorem extract_no_ogr (zr : ZipResult) (dir : String) (c : Nat) :
    CAction.runOgr2ogr c ∉ (extract_shapefile zr dir).1 := by
  rcases extract_actions zr dir with h | h <;> simp [h]

theorem extract_snd_none (zr : ZipResult) (dir : String) :
    (extract_shapefile zr dir).2 = none ↔ shpEntries zr = [] := by
  rcases zr with _ | names
  · simp [extract_shapefile, shpEntries]
  · rcases h : names.filter (fun n => strEndsWith n ".shp") with _ | ⟨f, fs⟩ <;>
      simp [extract_shapefile, shpEntries, h]

/-! Branch equations for `catrareMain`, one per orchestrator outcome. -/

theorem main_eq_gate (e : Env) (h1 : e.deps.ogr2ogr = false)
    (h2 : e.mock = false) : catrareMain e = (1, []) := by
  simp [catrareMain, h1, h2]

theorem main_eq_skip (e : Env) (hog : e.deps.ogr2ogr = true)
    (hm : e.mock = false) (hpe : e.pmtilesExists = true)
    (hfd : e.force_download = false) :
    catrareMain e = (0, [CAction.mkdirOutput (!e.outputDirExists)]) := by
  simp [catrareMain, hog, hm, hpe, hfd]

theorem main_eq_mock (e : Env) (hm : e.mock = true) :
    catrareMain e = (0, CAction.mkdirOutput (!e.outputDirExists) ::
      create_mock_data e.deps e.mockPmt) := by
  simp [catrareMain, hm]

theorem main_eq_nourl (e : Env) (hog : e.deps.ogr2ogr = true)
    (hm : e.mock = false)
    (hskip : e.pmtilesExists = false ∨ e.force_download = true)
    (hfu : (find_catrare_download_url e.headOk).2 = none) :
    catrareMain e = (0, CAction.mkdirOutput (!e.outputDirExists) ::
      ((find_catrare_download_url e.headOk).1 ++
        create_mock_data e.deps e.mockPmt)) := by
  rcases hskip with hs | hs <;>
    simp [catrareMain, hog, hm, hs, find_catrare_download_url] at hfu ⊢ <;>
    simp [hfu]

theorem main_eq_dlfail (e : Env) (hog : e.deps.ogr2ogr = true)
    (hm : e.mock = false)
    (hskip : e.pmtilesExists = false ∨ e.force_download = true)
    (u : String) (hfu : (find_catrare_download_url e.headOk).2 = some u)
    (hd : e.downloadOk = false) :
    catrareMain e = (0, CAction.mkdirOutput (!e.outputDirExists) ::
      ((find_catrare_download_url e.headOk).1 ++ CAction.netGet ::
        create_mock_data e.deps e.mockPmt)) := by
  rcases hskip with hs | hs <;>
    simp [catrareMain, hog, hm, hs, hd, find_catrare_download_url] at hfu ⊢ <;>
    simp [hfu]

theorem main_eq_exfail (e : Env) (hog : e.deps.ogr2ogr = true)
    (hm : e.mock = false)
    (hskip : e.pmtilesExists = false ∨ e.force_download = true)
    (u : String) (hfu : (find_catrare_download_url e.headOk).2 = some u)
    (hd : e.downloadOk = true)
    (hex : (extract_shapefile e.zip "tmp").2 = none) :
    catrareMain e = (0, CAction.mkdirOutput (!e.outputDirExists) ::
      ((find_catrare_download_url e.headOk).1 ++ CAction.netGet ::
        CAction.writeFile "catrare.zip" ::
          ((extract_shapefile e.zip "tmp").1 ++
            create_mock_data e.deps e.mockPmt))) := by
  rcases hskip with hs | hs <;>
    simp [catrareMain, hog, hm, hs, hd, find_catrare_download_url] at hfu ⊢ <;>
    simp [hfu, hex]

theorem main_eq_convfail (e : Env) (hog : e.deps.ogr2ogr = true)
    (hm : e.mock = false)
    (hskip : e.pmtilesExists = false ∨ e.force_download = true)
    (u : String) (hfu : (find_catrare_download_url e.headOk).2 = some u)
    (hd : e.downloadOk = true)
    (s : String) (hex : (extract_shapefile e.zip "tmp").2 = some s)
    (hc : filter_and_convert_to_geojson e.conv = false) :
    catrareMain e = (0, CAction.mkdirOutput (!e.outputDirExists) ::
      ((find_catrare_download_url e.headOk).1 ++ CAction.netGet ::
        CAction.writeFile "catrare.zip" ::
          ((extract_shapefile e.zip "tmp").1 ++
            CAction.runOgr2ogr (min_date (e.currentYear - e.years)) ::
              create_mock_data e.deps e.mockPmt))) := by
  rcases hskip with hs | hs <;>
    simp [catrareMain, hog, hm, hs, hd, find_catrare_download_url] at hfu ⊢ <;>
    simp [hfu, hex, hc]

theorem main_eq_success (e : Env) (hog : e.deps.ogr2ogr = true)
    (hm : e.mock = false)
    (hskip : e.pmtilesExists = false ∨ e.force_download = true)
    (u : String) (hfu : (find_catrare_download_url e.headOk).2 = some u)
    (hd : e.downloadOk = true)
    (s : String) (hex : (extract_shapefile e.zip "tmp").2 = some s)
    (hc : filter_and_convert_to_geojson e.conv = true) :
    catrareMain e = (0, CAction.mkdirOutput (!e.outputDirExists) ::
      ((find_catrare_download_url e.headOk).1 ++ CAction.netGet ::
        CAction.writeFile "catrare.zip" ::
          ((extract_shapefile e.zip "tmp").1 ++
            CAction.runOgr2ogr (min_date (e.currentYear - e.years)) ::
              CAction.writeFile "catrare_recent.json" ::
                (if e.deps.tippecanoe && !e.geojson_only then
                  CAction.runTippecanoe ::
                    (if convert_to_pmtiles e.pmt then
                      [CAction.writeFile "catrare.pmtiles"] else [])
                else [])))) := by
  rcases hskip with hs | hs <;>
    simp [catrareMain, hog, hm, hs, hd, find_catrare_download_url] at hfu ⊢ <;>
    simp [hfu, hex, hc] <;> split <;> simp

end Catrare

namespace Kostra

theorem process_scenario_success (d p : String × String) (s : ScenarioEnv) :
    (process_scenario d p s).1 = scenario_ok s := by
  rcases s with ⟨dl, dc, t, w, v⟩
  cases dl <;> cases dc <;> cases t <;> cases w <;> cases v <;>
    simp [process_scenario, convert_to_cog, scenario_ok]

theorem process_scenario_net_count (d p : String × String) (s : ScenarioEnv) :
    ((process_scenario d p s).2.countP (fun a => KAction.isNetwork a)) = 1 := by
  rcases s with ⟨dl, dc, t, w, v⟩
  cases dl <;> cases dc <;> cases t <;> cases w <;> cases v <;>
    simp [process_scenario, convert_to_cog, KAction.isNetwork, List.countP_cons,
      List.countP_append]

theorem runScenariosGo_success (env : Nat → ScenarioEnv)
    (l : List (Nat × ((String × String) × (String × String)))) :
    (runScenariosGo env l).1 = l.countP (fun ip => scenario_ok (env ip.1)) := by
  induction l with
  | nil => simp [runScenariosGo]
  | cons hd tl ih =>
    rcases hd with ⟨i, dp⟩
    simp only [runScenariosGo, ih, List.countP_cons, process_scenario_success]
    split <;> omega

theorem runScenariosGo_net_count (env : Nat → ScenarioEnv)
    (l : List (Nat × ((String × String) × (String × String)))) :
    ((runScenariosGo env l).2.countP (fun a => KAction.isNetwork a)) = l.length := by
  induction l with
  | nil => simp [runScenariosGo]
  | cons hd tl ih =>
    rcases hd with ⟨i, dp⟩
    simp [runScenariosGo, List.countP_append, ih, process_scenario_net_count]
    omega

/-- A scenario whose download, decompression and conversion all succeed. -/
def sampleScenario : ScenarioEnv where
  downloadOk := true
  decompressOk := true
  cog := { translateOk := true, warpOk := true, cogValid := true }

end Kostra

namespace Catrare

/-- A fully successful real-run environment, used to instantiate theorems at
concrete inputs. -/
def sampleEnv : Env where
  deps := { ogr2ogr := true, tippecanoe := true, pmtiles := true }
  mock := false
  geojson_only := false
  force_download := false
  years := 10
  currentYear := 2025
  outputDirExists := true
  pmtilesExists := false
  headOk := fun _ => true
  downloadOk := true
  zip := ZipResult.entries
    ["CatRaRE_W3_Eta_v2023.01.shp", "CatRaRE_W3_Eta_v2023.01.dbf"]
  conv := { returncode := 0, output_exists := true, output_parses := true }
  pmt := { rc_ok := true, out_exists := true }
  mockPmt := { rc_ok := true, out_exists := true }

end Catrare

namespace Catrare

/-- Every run that passes the dependency gate exits 0; the only non-zero
exit is the gate itself. -/
theorem catrareMain_exit (e : Env) :
    (catrareMain e).1 = 0 ∨ (e.deps.ogr2ogr = false ∧ e.mock = false) := by
  by_cases hm : e.mock = true
  · left; rw [main_eq_mock e hm]
  · replace hm : e.mock = false := by simpa using hm
    by_cases hog : e.deps.ogr2ogr = true
    · left
      by_cases hskip : e.pmtilesExists = true ∧ e.force_download = false
      · rw [main_eq_skip e hog hm hskip.1 hskip.2]
      · replace hskip : e.pmtilesExists = false ∨ e.force_download = true := by
          rcases Bool.eq_false_or_eq_true e.pmtilesExists with h1 | h1
          · rcases Bool.eq_false_or_eq_true e.force_download with h2 | h2
            · exact Or.inr h2
            · exact absurd ⟨h1, h2⟩ hskip
          · exact Or.inl h1
        rcases hfu : (find_catrare_download_url e.headOk).2 with _ | u
        · rw [main_eq_nourl e hog hm hskip hfu]
        · by_cases hd : e.downloadOk = true
          · rcases hex : (extract_shapefile e.zip "tmp").2 with _ | s
            · rw [main_eq_exfail e hog hm hskip u hfu hd hex]
            · by_cases hc : filter_and_convert_to_geojson e.conv = true
              · rw [main_eq_success e hog hm hskip u hfu hd s hex hc]
              · rw [main_eq_convfail e hog hm hskip u hfu hd s hex
                  (by simpa using hc)]
          · rw [main_eq_dlfail e hog hm hskip u hfu (by simpa using hd)]
    · right; exact ⟨by simpa using hog, hm⟩

end Catrare

namespace Kostra

/-- Past the GDAL gate, a non-dry run performs exactly six network
downloads, one per scenario, whatever their outcomes. -/
theorem kostraMain_net_count (e : KEnv) (hg : e.gdalInstalled = true)
    (hd : e.dryRun = false) :
    (kostraMain e).2.countP (fun a => KAction.isNetwork a) = 6 := by
  simp only [kostraMain, hg, hd, Bool.not_true, Bool.false_eq_true,
    if_false, if_true, Bool.not_false]
  rw [List.countP_append, runScenariosGo_net_count e.scenario scenarioList.enum]
  simp [KAction.isNetwork, List.enum_length, scenarioList, DURATIONS,
    RETURN_PERIODS, List.countP_cons]

/-- A raster run environment for a second invocation: GDAL present, all
outputs already present, every scenario succeeding. -/
def kenvRerun : KEnv where
  gdalInstalled := true
  dryRun := false
  outputDirExists := true
  outputsExist := true
  scenario := fun _ => sampleScenario

/-- A dry-run environment with the output directory absent. -/
def kenvDry : KEnv where
  gdalInstalled := true
  dryRun := true
  outputDirExists := false
  outputsExist := false
  scenario := fun _ => sampleScenario

/-- A dry-run environment with GDAL missing. -/
def kenvDryNoGdal : KEnv where
  gdalInstalled := false
  dryRun := true
  outputDirExists := true
  outputsExist := false
  scenario := fun _ => sampleScenario

end Kostra

namespace Catrare

/-- sampleEnv with tile packaging (tippecanoe) failing. -/
def cenvPkgFail : Env :=
  { sampleEnv with pmt := { rc_ok := false, out_exists := false } }

/-- sampleEnv with the download failing partway. -/
def cenvDlFail : Env := { sampleEnv with downloadOk := false }

/-- sampleEnv with the final artifact already present. -/
def cenvSkip : Env := { sampleEnv with pmtilesExists := true }

end Catrare

/-! ## Claim theorems -/

/-- C5: for every zip archive, an archive that cannot be opened as a zip
yields a closed failure (no path, the `BadZipFile` exception is caught);
with zero entries ending in `.shp` extraction returns no path; with at
least one matching entry the entire container is extracted and the path of
the first matching entry inside the extraction directory is returned. The
embedding `extract_shapefile` is a total function, so no input raises an
unhandled fault. -/
theorem extract_shapefile_spec (zr : Catrare.ZipResult) (dir : String) :
    (zr = Catrare.ZipResult.badZip →
      Catrare.extract_shapefile zr dir = ([], none)) ∧
    (Catrare.shpEntries zr = [] →
      (Catrare.extract_shapefile zr dir).2 = none) ∧
    (∀ f fs, Catrare.shpEntries zr = f :: fs →
      Catrare.extract_shapefile zr dir =
        ([Catrare.CAction.extractAll], some (dir ++ "/" ++ f))) := by
  refine ⟨?_, ?_, ?_⟩
  · rintro rfl
    simp [Catrare.extract_shapefile]
  · intro h
    exact (Catrare.extract_snd_none zr dir).mpr h
  · intro f fs h
    rcases zr with _ | names
    · simp [Catrare.shpEntries] at h
    · simp only [Catrare.shpEntries] at h
      simp [Catrare.extract_shapefile, h]

/-- Witness for extract_shapefile_spec: a concrete archive with two `.shp`
entries is fully extracted and the path of the first one is returned. -/
theorem extract_shapefile_spec_witness :
    Catrare.extract_shapefile
        (Catrare.ZipResult.entries ["readme.txt", "a.shp", "b.shp"]) "tmp"
      = ([Catrare.CAction.extractAll], some "tmp/a.shp") :=
  (extract_shapefile_spec
      (Catrare.ZipResult.entries ["readme.txt", "a.shp", "b.shp"]) "tmp").2.2
    "a.shp" ["b.shp"] (by decide)

/-- C6 counterexample: when the first sub-step (gdal_translate) fails, the
conversion has created the intermediate GeoTIFF but returns without
removing it (the `unlink` at line 188 is only reached after the warp step),
refuting removal on every execution path. -/
theorem cog_intermediate_leak :
    (Kostra.convert_to_cog
        { translateOk := false, warpOk := true, cogValid := true }).1 = false ∧
    Kostra.KAction.createIntermediate ∈
      (Kostra.convert_to_cog
        { translateOk := false, warpOk := true, cogValid := true }).2 ∧
    Kostra.KAction.unlinkIntermediate ∉
      (Kostra.convert_to_cog
        { translateOk := false, warpOk := true, cogValid := true }).2 := by
  decide

/-- C6 amended: on every execution path that reaches the warp sub-step —
that is, whenever the CRS-assignment sub-step succeeded — the intermediate
GeoTIFF is removed before the conversion returns, whether the warp or the
subsequent validation succeeds or fails; on a CRS-assignment failure the
intermediate is not removed. -/
theorem cog_intermediate_cleanup (c : Kostra.CogEnv)
    (h : c.translateOk = true) :
    Kostra.KAction.unlinkIntermediate ∈ (Kostra.convert_to_cog c).2 := by
  by_cases hw : c.warpOk = true <;>
    simp [Kostra.convert_to_cog, h, hw]

/-- Witness for cog_intermediate_cleanup: warp failure still removes the
intermediate. -/
theorem cog_intermediate_cleanup_witness :
    Kostra.KAction.unlinkIntermediate ∈
      (Kostra.convert_to_cog
        { translateOk := true, warpOk := false, cogValid := false }).2 :=
  cog_intermediate_cleanup
    { translateOk := true, warpOk := false, cogValid := false } rfl

/-- C10: the vector conversion stage reports success exactly when the
external tool exits 0, the declared output file exists, and the output
parses as JSON; in particular an output file that exists but is not valid
JSON makes the stage report failure — the `json.load` exception is caught
by the except clause of the stage and converted to `False`, never escaping. -/
theorem conversion_success_iff (c : Catrare.ConvEnv) :
    Catrare.filter_and_convert_to_geojson c = true ↔
      c.returncode = 0 ∧ c.output_exists = true ∧ c.output_parses = true := by
  rcases c with ⟨rc, ex, pj⟩
  by_cases hrc : rc = 0 <;> cases ex <;> cases pj <;>
    simp [Catrare.filter_and_convert_to_geojson, hrc]

/-- C7: the date-filter cutoff of the vector pipeline is `minYear*10000+101`
with `minYear = currentYear - years`, and for every year this integer is
the `YYYYMMDD` encoding of January 1 of that year. -/
theorem catrare_date_cutoff :
    (∀ y, Catrare.min_date y = Catrare.yyyymmdd y 1 1) ∧
    (∀ (e : Catrare.Env) (c : Nat),
      Catrare.CAction.runOgr2ogr c ∈ (Catrare.catrareMain e).2 →
      c = Catrare.min_date (e.currentYear - e.years)) := by
  constructor
  · intro y
    unfold Catrare.min_date Catrare.yyyymmdd
    omega
  · intro e c h
    by_cases hm : e.mock = true
    · rw [Catrare.main_eq_mock e hm] at h
      simp [Catrare.create_mock_no_ogr] at h
    · replace hm : e.mock = false := by simpa using hm
      by_cases hog : e.deps.ogr2ogr = true
      · by_cases hskip : e.pmtilesExists = true ∧ e.force_download = false
        · rw [Catrare.main_eq_skip e hog hm hskip.1 hskip.2] at h
          simp at h
        · replace hskip : e.pmtilesExists = false ∨ e.force_download = true := by
            rcases Bool.eq_false_or_eq_true e.pmtilesExists with h1 | h1
            · rcases Bool.eq_false_or_eq_true e.force_download with h2 | h2
              · exact Or.inr h2
              · exact absurd ⟨h1, h2⟩ hskip
            · exact Or.inl h1
          rcases hfu : (Catrare.find_catrare_download_url e.headOk).2 with _ | u
          · rw [Catrare.main_eq_nourl e hog hm hskip hfu] at h
            simp [Catrare.create_mock_no_ogr, Catrare.find_catrare_download_url,
              Catrare.findUrlGo_no_ogr] at h
          · by_cases hd : e.downloadOk = true
            · rcases hex : (Catrare.extract_shapefile e.zip "tmp").2 with _ | s
              · rw [Catrare.main_eq_exfail e hog hm hskip u hfu hd hex] at h
                simp [Catrare.create_mock_no_ogr, Catrare.find_catrare_download_url,
                  Catrare.findUrlGo_no_ogr, Catrare.extract_no_ogr] at h
              · by_cases hc : Catrare.filter_and_convert_to_geojson e.conv = true
                · rw [Catrare.main_eq_success e hog hm hskip u hfu hd s hex hc] at h
                  by_cases h6 : (e.deps.tippecanoe && !e.geojson_only) = true <;>
                    by_cases h7 : Catrare.convert_to_pmtiles e.pmt = true <;>
                    simp [h6, h7, Catrare.find_catrare_download_url,
                      Catrare.findUrlGo_no_ogr, Catrare.extract_no_ogr] at h <;>
                    try exact h
                · replace hc : Catrare.filter_and_convert_to_geojson e.conv = false := by
                    simpa using hc
                  rw [Catrare.main_eq_convfail e hog hm hskip u hfu hd s hex hc] at h
                  simp [Catrare.create_mock_no_ogr, Catrare.find_catrare_download_url,
                    Catrare.findUrlGo_no_ogr, Catrare.extract_no_ogr] at h
                  exact h
            · replace hd : e.downloadOk = false := by simpa using hd
              rw [Catrare.main_eq_dlfail e hog hm hskip u hfu hd] at h
              simp [Catrare.create_mock_no_ogr, Catrare.find_catrare_download_url,
                Catrare.findUrlGo_no_ogr] at h
      · replace hog : e.deps.ogr2ogr = false := by simpa using hog
        rw [Catrare.main_eq_gate e hog hm] at h
        simp at h

/-- C8: mock mode on the vector pipeline always reaches `create_mock_data`
(whatever the other flags and outcomes), and the mock GeoJSON it writes
has three features — at least one — each of whose properties contain all
of ID, DATUM, ANFANG, ENDE, DAUER_H, N_MAX, N_SUMME, WARNSTUFE and
FLAECHE_KM2, with metadata.version equal to "MOCK". -/
theorem mock_geojson_valid :
    (Catrare.mock_geojson.lookup "features" =
        some (Catrare.Json.arr Catrare.mock_features) ∧
      1 ≤ Catrare.mock_features.length ∧
      Catrare.mock_features.all Catrare.featureHasRequiredKeys = true) ∧
    ((Catrare.mock_geojson.lookup "metadata").bind (fun m => m.lookup "version")
        = some (Catrare.Json.str "MOCK")) ∧
    (∀ e : Catrare.Env, e.mock = true →
      Catrare.CAction.createMock ∈ (Catrare.catrareMain e).2) := by
  refine ⟨⟨rfl, by decide, rfl⟩, rfl, ?_⟩
  intro e hm
  have h1 : (!e.deps.ogr2ogr && !e.mock) = false := by simp [hm]
  have h2 : (e.pmtilesExists && !e.force_download && !e.mock) = false := by
    simp [hm]
  simp [Catrare.catrareMain, h1, h2, hm,
    Catrare.createMock_mem_create_mock_data]

/-- C1 counterexample: a run in which every stage up to conversion succeeds
but tile packaging (tippecanoe) reports failure: no mock placeholder is
generated — main only prints a warning and keeps the real GeoJSON fallback
— so a packaging failure does not transition to the fallback path. -/
theorem catrare_no_fallback_on_packaging_failure :
    Catrare.convert_to_pmtiles Catrare.cenvPkgFail.pmt = false ∧
    (Catrare.catrareMain Catrare.cenvPkgFail).1 = 0 ∧
    Catrare.CAction.createMock ∉ (Catrare.catrareMain Catrare.cenvPkgFail).2 := by
  decide

/-- C1 amended: after the dependency gate, a reported failure of location
resolution, download, extraction or conversion makes the vector pipeline
generate the mock placeholder; a tile-packaging failure does not (the
GeoJSON artifact is already written and only a warning is printed). -/
theorem catrare_fallback_on_failure (e : Catrare.Env)
    (hog : e.deps.ogr2ogr = true) (hm : e.mock = false)
    (hskip : e.pmtilesExists = false ∨ e.force_download = true)
    (hfail : (Catrare.find_catrare_download_url e.headOk).2 = none ∨
      e.downloadOk = false ∨
      Catrare.shpEntries e.zip = [] ∨
      Catrare.filter_and_convert_to_geojson e.conv = false) :
    Catrare.CAction.createMock ∈ (Catrare.catrareMain e).2 := by
  rcases hfu : (Catrare.find_catrare_download_url e.headOk).2 with _ | u
  · rw [Catrare.main_eq_nourl e hog hm hskip hfu]
    simp [Catrare.createMock_mem_create_mock_data]
  · by_cases hd : e.downloadOk = true
    · rcases hex : (Catrare.extract_shapefile e.zip "tmp").2 with _ | s
      · rw [Catrare.main_eq_exfail e hog hm hskip u hfu hd hex]
        simp [Catrare.createMock_mem_create_mock_data]
      · by_cases hc : Catrare.filter_and_convert_to_geojson e.conv = true
        · exfalso
          rcases hfail with h | h | h | h
          · rw [hfu] at h; exact Option.noConfusion h
          · rw [h] at hd; exact Bool.noConfusion hd
          · have h2 := (Catrare.extract_snd_none e.zip "tmp").mpr h
            rw [hex] at h2; exact Option.noConfusion h2
          · rw [h] at hc; exact Bool.noConfusion hc
        · rw [Catrare.main_eq_convfail e hog hm hskip u hfu hd s hex
            (by simpa using hc)]
          simp [Catrare.createMock_mem_create_mock_data]
    · rw [Catrare.main_eq_dlfail e hog hm hskip u hfu (by simpa using hd)]
      simp [Catrare.createMock_mem_create_mock_data]

/-- Witness for catrare_fallback_on_failure: a concrete run whose download
fails generates the mock placeholder. -/
theorem catrare_fallback_on_failure_witness :
    Catrare.CAction.createMock ∈ (Catrare.catrareMain Catrare.cenvDlFail).2 :=
  catrare_fallback_on_failure Catrare.cenvDlFail rfl rfl (Or.inl rfl)
    (Or.inr (Or.inl rfl))

/-- C2 counterexample: a raster dry run with the output directory absent
performs a filesystem write — it creates the output directory (mkdir at
line 324 runs before the dry-run branch) — refuting "zero filesystem
writes for every argument combination". -/
theorem kostra_dry_run_writes :
    Kostra.kenvDry.dryRun = true ∧
    (Kostra.kostraMain Kostra.kenvDry).2.any
      (fun a => Kostra.KAction.isFsWrite a) = true := by
  decide

/-- C2 amended: once the GDAL gate passes, a dry run exits 0, performs zero
network calls, prints exactly the six planned (input, output) pairs of the
default duration/return-period sets, and performs no filesystem write other
than creating the output directory when it is missing. -/
theorem kostra_dry_run_spec (e : Kostra.KEnv)
    (hg : e.gdalInstalled = true) (hd : e.dryRun = true) :
    (Kostra.kostraMain e).1 = 0 ∧
    (Kostra.kostraMain e).2.countP (fun a => Kostra.KAction.isNetwork a) = 0 ∧
    (Kostra.kostraMain e).2.filterMap Kostra.KAction.planOf =
      Kostra.dryRunPairs ∧
    Kostra.dryRunPairs.length = 6 ∧
    (∀ a ∈ (Kostra.kostraMain e).2, Kostra.KAction.isFsWrite a = true →
      a = Kostra.KAction.mkdirOutput true ∧ e.outputDirExists = false) := by
  refine ⟨?_, ?_, ?_, by decide, ?_⟩
  · simp [Kostra.kostraMain, hg, hd]
  · simp [Kostra.kostraMain, hg, hd, List.countP_cons, List.countP_map,
      Kostra.KAction.isNetwork, Function.comp]
  · have hcomp : ∀ l : List (String × String),
        (l.map (fun pr => Kostra.KAction.planPair pr.1 pr.2)).filterMap
          Kostra.KAction.planOf = l := by
      intro l
      induction l with
      | nil => rfl
      | cons x xs ih => simp [Kostra.KAction.planOf, ih]
    simp [Kostra.kostraMain, hg, hd, Kostra.KAction.planOf, hcomp]
  · intro a ha hw
    simp [Kostra.kostraMain, hg, hd] at ha
    rcases ha with ha | ha | ha
    · rw [ha] at hw; exact Bool.noConfusion hw
    · rcases Bool.eq_false_or_eq_true e.outputDirExists with hdir | hdir
      · rw [ha, hdir] at hw
        simp [Kostra.KAction.isFsWrite] at hw
      · exact ⟨by rw [ha, hdir]; rfl, hdir⟩
    · rcases ha with ⟨pr, hpr, hmem, hpa⟩
      rw [← hpa] at hw
      simp [Kostra.KAction.isFsWrite] at hw

/-- Witness for kostra_dry_run_spec at a concrete dry-run environment. -/
theorem kostra_dry_run_spec_witness :
    (Kostra.kostraMain Kostra.kenvDry).1 = 0 ∧
    (Kostra.kostraMain Kostra.kenvDry).2.countP
      (fun a => Kostra.KAction.isNetwork a) = 0 :=
  ⟨(kostra_dry_run_spec Kostra.kenvDry rfl rfl).1,
   (kostra_dry_run_spec Kostra.kenvDry rfl rfl).2.1⟩

/-- C3 counterexample: in the raster pipeline a missing GDAL aborts the run
with exit code 1 even in dry-run mode (the dependency check at lines
316-319 precedes the dry-run branch), so a missing required tool is not
tolerated in the dry-run context. -/
theorem kostra_dry_run_tool_missing_aborts :
    Kostra.kenvDryNoGdal.dryRun = true ∧
    Kostra.kostraMain Kostra.kenvDryNoGdal =
      (1, [Kostra.KAction.checkGdal]) := by
  decide

/-- C3 amended: a missing required conversion tool is fatal with exit code 1
before any network access whenever mock mode is not set — in the raster
pipeline even under dry-run — and is tolerated in mock mode, where the run
exits 0 and produces the placeholder. -/
theorem tool_missing_policy :
    (∀ e : Catrare.Env, e.deps.ogr2ogr = false → e.mock = false →
      Catrare.catrareMain e = (1, [])) ∧
    (∀ e : Catrare.Env, e.deps.ogr2ogr = false → e.mock = true →
      (Catrare.catrareMain e).1 = 0 ∧
      Catrare.CAction.createMock ∈ (Catrare.catrareMain e).2) ∧
    (∀ k : Kostra.KEnv, k.gdalInstalled = false →
      Kostra.kostraMain k = (1, [Kostra.KAction.checkGdal])) := by
  refine ⟨?_, ?_, ?_⟩
  · intro e h1 h2
    exact Catrare.main_eq_gate e h1 h2
  · intro e h1 h2
    rw [Catrare.main_eq_mock e h2]
    exact ⟨rfl, by simp [Catrare.createMock_mem_create_mock_data]⟩
  · intro k h
    simp [Kostra.kostraMain, h]

/-- C4 counterexample: the raster pipeline has no existence-based skip:
with every final artifact already present (and the pipeline offering no
force-refresh or mock flag), a second invocation still performs six
network downloads and re-runs the conversions. -/
theorem kostra_no_idempotent_skip :
    Kostra.kenvRerun.outputsExist = true ∧
    Kostra.kenvRerun.dryRun = false ∧
    (Kostra.kostraMain Kostra.kenvRerun).2.countP
      (fun a => Kostra.KAction.isNetwork a) = 6 :=
  ⟨rfl, rfl, Kostra.kostraMain_net_count Kostra.kenvRerun rfl rfl⟩

/-- C4 amended: the idempotent skip holds for the vector pipeline: with the
required tool installed, the artifact present and neither force-refresh
nor mock set, a second invocation only re-runs the (pre-existing) output
directory creation — no network, conversion or filesystem-write action —
and exits 0. The raster pipeline has no such check and always reprocesses. -/
theorem catrare_idempotent_skip (e : Catrare.Env)
    (hog : e.deps.ogr2ogr = true) (hm : e.mock = false)
    (hfd : e.force_download = false) (hpe : e.pmtilesExists = true)
    (hdir : e.outputDirExists = true) :
    Catrare.catrareMain e = (0, [Catrare.CAction.mkdirOutput false]) ∧
    ∀ a ∈ (Catrare.catrareMain e).2,
      Catrare.CAction.isNetwork a = false ∧
      Catrare.CAction.isConversion a = false ∧
      Catrare.CAction.isFsWrite a = false := by
  have h := Catrare.main_eq_skip e hog hm hpe hfd
  rw [hdir] at h
  refine ⟨h, ?_⟩
  rw [h]
  intro a ha
  simp at ha
  rw [ha]
  exact ⟨rfl, rfl, rfl⟩

/-- Witness for catrare_idempotent_skip at a concrete environment whose
artifact already exists. -/
theorem catrare_idempotent_skip_witness :
    Catrare.catrareMain Catrare.cenvSkip =
      (0, [Catrare.CAction.mkdirOutput false]) :=
  (catrare_idempotent_skip Catrare.cenvSkip rfl rfl rfl rfl rfl).1

/-- C9: the exit-code policy. The vector pipeline exits 0 on every run that
passes the dependency gate — in particular a download that fails partway
still writes the fallback artifact and exits 0 — and the raster batch
pipeline, after attempting all six scenarios (six downloads), exits 0
exactly when every scenario succeeds and 1 otherwise. -/
theorem exit_code_policy :
    (∀ e : Catrare.Env, (e.deps.ogr2ogr = true ∨ e.mock = true) →
      (Catrare.catrareMain e).1 = 0) ∧
    (∀ e : Catrare.Env, e.deps.ogr2ogr = true → e.mock = false →
      (e.pmtilesExists = false ∨ e.force_download = true) →
      ∀ u, (Catrare.find_catrare_download_url e.headOk).2 = some u →
        e.downloadOk = false →
        (Catrare.catrareMain e).1 = 0 ∧
        Catrare.CAction.createMock ∈ (Catrare.catrareMain e).2 ∧
        Catrare.CAction.writeFile "catrare_recent.json" ∈
          (Catrare.catrareMain e).2) ∧
    (∀ k : Kostra.KEnv, k.gdalInstalled = true → k.dryRun = false →
      (((Kostra.kostraMain k).1 = 0) ↔
        ∀ ip ∈ Kostra.scenarioList.enum,
          Kostra.scenario_ok (k.scenario ip.1) = true) ∧
      (Kostra.kostraMain k).2.countP
        (fun a => Kostra.KAction.isNetwork a) = 6) := by
  refine ⟨?_, ?_, ?_⟩
  · intro e hgate
    rcases Catrare.catrareMain_exit e with h | h
    · exact h
    · rcases hgate with hg | hg
      · rw [h.1] at hg; exact Bool.noConfusion hg
      · rw [h.2] at hg; exact Bool.noConfusion hg
  · intro e hog hm hskip u hfu hd
    rw [Catrare.main_eq_dlfail e hog hm hskip u hfu hd]
    refine ⟨rfl, ?_, ?_⟩ <;>
      simp [Catrare.create_mock_data]
  · intro k hg hd
    refine ⟨?_, Kostra.kostraMain_net_count k hg hd⟩
    simp only [Kostra.kostraMain, hg, hd, Bool.not_true, Bool.false_eq_true,
      if_false, if_true, Bool.not_false]
    rw [Kostra.runScenariosGo_success]
    have hle := List.countP_le_length
      (fun ip => Kostra.scenario_ok (k.scenario ip.1))
      (l := Kostra.scenarioList.enum)
    have hlen : Kostra.scenarioList.enum.length = Kostra.scenarioList.length :=
      List.enum_length
    constructor
    · intro h0
      by_cases hlt : List.countP
          (fun ip => Kostra.scenario_ok (k.scenario ip.1))
          Kostra.scenarioList.enum < Kostra.scenarioList.length
      · simp [hlt] at h0
      · exact List.countP_eq_length.mp (by omega)
    · intro hall
      have heq := List.countP_eq_length.mpr hall
      simp [heq, hlen]
